import Mathlib

/-!
Shallow embedding of the `hnpixels` package (file `src/hnpixels/core.py` and
`src/hnpixels/protector.py`) and proofs of the behavioural claims about it.

Conventions of the embedding:
* Python exceptions are modelled by the `PyErr` type; fallible code returns
  `Except PyErr α`.
* Python `bytes` buffers are modelled as `List Int` (each element a byte value);
  this also uniformly covers `Colour.from_triple`, whose argument may be a
  `bytes` value (elements in `[0, 255]`) or an arbitrary tuple of Python ints.
* Wall-clock time and the rate-limit quantities are modelled as integers
  (every claim involves only integral times and resets, so the int/float
  distinction of the source carries no content here).  `time.time()` is
  passed explicitly as a `now` argument, and `time.sleep` is modelled by
  returning the wait duration.
* HTTP response headers are modelled as an association list from header names
  to their numeric values; the `int(...)` / `float(...)` string parsing that
  `core.py` applies to the header text is abstracted to the parsed number
  (header-value parse errors are outside every claim considered here).
-/

/-- Python exceptions raised by the embedded code.  `ratelimitError` is
`core.RatelimitError`, a subclass of `requests.HTTPError`; `wrappedHTTPError`
is the fresh `requests.HTTPError` that `Endpoint.request` raises with the
original error as its cause; `connectionError` is a transport-level failure
from the `requests` library (connection refused / timeout / DNS), which is a
`requests.RequestException` but not an `HTTPError`. -/
inductive PyErr : Type where
  | valueError (msg : String)
  | keyError (msg : String)
  | httpError
  | ratelimitError
  | wrappedHTTPError (cause : PyErr)
  | connectionError
  | attributeError (missing : String)
  deriving Repr, DecidableEq

/-- Truth of `isinstance(e, requests.HTTPError)`: `RatelimitError` subclasses
`HTTPError`, and the wrapped re-raise in `Endpoint.request` is itself an
`HTTPError`. -/
def PyErr.isHTTPError : PyErr → Bool
  | .httpError => true
  | .ratelimitError => true
  | .wrappedHTTPError _ => true
  | _ => false

/-- The `Colour` dataclass of `core.py`: three RGB channels.  The Python class
performs no range validation, and Python ints are unbounded, so the channels
are modelled as unconstrained integers. -/
structure Colour : Type where
  r : Int
  g : Int
  b : Int
  deriving Repr, DecidableEq

/-- Embedding of `Colour.from_triple`: requires exactly three elements, no
range check.  The Python argument is a 3-byte `bytes` string or a tuple of
ints; both are modelled as a `List Int`. -/
def Colour.from_triple (triple : List Int) : Except PyErr Colour :=
  if triple.length ≠ 3 then
    .error (.valueError "Must provide a three byte byte string or three tuple of ints")
  else
    .ok ⟨triple.getD 0 0, triple.getD 1 0, triple.getD 2 0⟩

/-- Value of a hexadecimal digit character, as accepted by the Python
function `bytes.fromhex`. -/
def hexTable : List (Char × Nat) :=
  [('0', 0), ('1', 1), ('2', 2), ('3', 3), ('4', 4), ('5', 5), ('6', 6),
   ('7', 7), ('8', 8), ('9', 9),
   ('a', 10), ('b', 11), ('c', 12), ('d', 13), ('e', 14), ('f', 15),
   ('A', 10), ('B', 11), ('C', 12), ('D', 13), ('E', 14), ('F', 15)]

/-- Hex-digit lookup used by the `bytes.fromhex` embedding. -/
def hexVal (c : Char) : Option Nat := hexTable.lookup c

/-- Embedding of `bytes.fromhex` on a list of characters: consumes pairs of
hex digits, producing one byte per pair; fails on a non-hex digit or an odd
number of digits.  (Python additionally allows whitespace between pairs; for
the six-character inputs reaching this function through `Colour.from_hex`,
any whitespace yields a failure either way, so strict pairing is faithful.) -/
def bytesFromHex : List Char → Option (List Int)
  | [] => some []
  | [_] => none
  | c0 :: c1 :: rest =>
    match hexVal c0, hexVal c1 with
    | some v0, some v1 =>
      match bytesFromHex rest with
      | some bs => some (((16 * v0 + v1 : Nat) : Int) :: bs)
      | none => none
    | _, _ => none

/-- Embedding of `Colour.from_hex`: length check first (`ValueError` when the
string is not six characters), then `bytes.fromhex` (`ValueError` on non-hex
digits), then `Colour.from_triple`. -/
def Colour.from_hex (hexrep : String) : Except PyErr Colour :=
  if hexrep.length ≠ 6 then
    .error (.valueError "Must provide a six digit hex string")
  else
    match bytesFromHex hexrep.data with
    | none => .error (.valueError "non-hexadecimal number found in fromhex() arg")
    | some triple => Colour.from_triple triple

/-- Lowercase hexadecimal digit characters, in value order. -/
def hexDigitsLower : List Char :=
  ['0', '1', '2', '3', '4'] ++ ['5', '6', '7', '8', '9'] ++
    ['a', 'b', 'c', 'd', 'e', 'f']

/-- The lowercase hex digit of a value below 16. -/
def lowerHexDigit (n : Nat) : Char := hexDigitsLower.getD n '0'

/-- The two characters produced by the format specifier `f"{ch:0>2x}"` for a
channel value in `[0, 255]` (the range `Colour.hex` is ever applied to):
lowercase hex, zero-padded to width two. -/
def hexPair (ch : Int) : List Char :=
  [lowerHexDigit (ch.toNat / 16 % 16), lowerHexDigit (ch.toNat % 16)]

/-- Embedding of the Python method `str.upper` for the ASCII strings involved here. -/
def pyUpper (s : String) : String := ⟨s.data.map Char.toUpper⟩

/-- Embedding of `Colour.hex`: join the three zero-padded lowercase hex pairs
and uppercase the result. -/
def Colour.hex (c : Colour) : String :=
  pyUpper ⟨hexPair c.r ++ hexPair c.g ++ hexPair c.b⟩

/-- Normalisation of one bound of a Python slice `s[lo:hi]`: negative bounds
count from the end, and both bounds are clamped into `[0, len]`. -/
def pyIdx (len : Nat) (i : Int) : Nat :=
  if i < 0 then ((len : Int) + i).toNat else min i.toNat len

/-- Embedding of the Python slice `l[lo:hi]` (never raises; out-of-range
bounds are clamped, possibly yielding a short or empty list). -/
def pySlice (l : List Int) (lo hi : Int) : List Int :=
  (l.take (pyIdx l.length hi)).drop (pyIdx l.length lo)

/-- The `Sketch` dataclass of `core.py`: raw canvas bytes plus dimensions. -/
structure Sketch : Type where
  content : List Int
  width : Nat
  height : Nat
  deriving Repr, DecidableEq

/-- Embedding of `Sketch.__getitem__`: negative coordinates get `width`
(resp. `height`) added once, the byte offset is `(x + width*y) * 3`, and the
3-byte slice is converted by `Colour.from_triple` (whose length check is the
only bounds check that can fire, raising `ValueError`). -/
def Sketch.getitem (s : Sketch) (key : Int × Int) : Except PyErr Colour :=
  let x := if key.1 < 0 then (s.width : Int) + key.1 else key.1
  let y := if key.2 < 0 then (s.height : Int) + key.2 else key.2
  let index := (x + (s.width : Int) * y) * 3
  Colour.from_triple (pySlice s.content index (index + 3))

/-- The `Ratelimiter` state of `core.py`: the single `guard_time` instant. -/
structure Ratelimiter : Type where
  guard_time : Int
  deriving Repr, DecidableEq

/-- Embedding of `Ratelimiter.__init__`: `guard_time = time.time() + warmup`,
with `time.time()` passed explicitly. -/
def Ratelimiter.init (now : Int) (warmup : Int) : Ratelimiter :=
  ⟨now + warmup⟩

/-- Embedding of `Ratelimiter.unlock`: `if not remaining:` sets
`guard_time = time.time() + reset`; `limit` is accepted and ignored, exactly
as in the source. -/
def Ratelimiter.unlock (rl : Ratelimiter) (now : Int) (remaining : Int)
    (limit : Int) (reset : Int) : Ratelimiter :=
  if remaining = 0 then ⟨now + reset⟩ else rl

/-- Embedding of `Ratelimiter.lock`: the duration slept, which is
`guard_time - now` when `now < guard_time` and zero otherwise. -/
def Ratelimiter.lockWait (rl : Ratelimiter) (now : Int) : Int :=
  if now < rl.guard_time then rl.guard_time - now else 0

/-- The instant at which a `lock()` issued at `now` returns. -/
def Ratelimiter.lockReturn (rl : Ratelimiter) (now : Int) : Int :=
  now + rl.lockWait now

/-- Response headers, as an association list from header name to the numeric
value carried by that header. -/
abbrev Headers : Type := List (String × Int)

/-- Header lookup; `none` models a `KeyError` on `headers[name]`. -/
def Headers.find (h : Headers) (name : String) : Option Int :=
  List.lookup name h

/-- The error raised when none of the three recognised rate-limit header sets
is present (*MissingRateLimitInfo* in the spec); in the source it is the
`KeyError("No ratelimit headers found in {headers}")` at the end of
`Endpoint.update_ratelimiter`. -/
def MissingRateLimitInfo : PyErr := .keyError "No ratelimit headers found"

/-- Embedding of `Endpoint.update_ratelimiter`, acting on the limiter owned
by the endpoint.  The nested `try/except KeyError` chain of the source is rendered as:
if any of `requests-remaining` / `requests-limit` / `requests-reset` is absent
(each absence raises `KeyError` in the source), fall back to `cooldown-reset`
with `remaining=0`, then to `retry-after` with `remaining=0`, else raise. -/
def update_ratelimiter (rl : Ratelimiter) (now : Int) (h : Headers) :
    Except PyErr Ratelimiter :=
  match h.find "requests-remaining", h.find "requests-limit",
        h.find "requests-reset" with
  | some remaining, some limit, some reset =>
    .ok (rl.unlock now remaining limit reset)
  | _, _, _ =>
    match h.find "cooldown-reset" with
    | some reset => .ok (rl.unlock now 0 0 reset)
    | none =>
      match h.find "retry-after" with
      | some reset => .ok (rl.unlock now 0 0 reset)
      | none => .error MissingRateLimitInfo

deriving instance DecidableEq for Except

/-- HTTP status code `requests.codes.too_many_requests`. -/
def TMR : Int := 429

/-- An HTTP response as seen by the embedded client: status code, numeric
rate-limit headers, and the optional `"rgb"` field of the JSON body (used by
`Painter.colour`; `none` models a body whose JSON has no `"rgb"` key). -/
structure Response : Type where
  status : Int
  headers : Headers
  rgb : Option String
  deriving DecidableEq

/-- Truth of `response.ok` in the `requests` library: status below 400. -/
def Response.ok (r : Response) : Bool := r.status < 400

/-- Outcome of one call into the transport (the `requests` library): either an
HTTP response or a transport-level failure (connection refused / timeout),
which `requests` raises as a `ConnectionError`. -/
inductive TResult : Type where
  | resp (r : Response)
  | netFail
  deriving DecidableEq

/-- A scripted transport: the outcome of the `k`-th transport call made during
one `Endpoint.request` invocation (activation probes first, then the real
request). -/
abbrev Transport : Type := Nat → TResult

/-- The `Endpoint` state of `core.py`: configuration plus the owned
`Ratelimiter` and the `_active` flag. -/
structure Endpoint : Type where
  method : String
  url : String
  ratelimiter : Ratelimiter
  active : Bool
  deriving DecidableEq

/-- Embedding of `Endpoint.activate` on one transport outcome: an ok probe
updates the limiter; a 429 probe updates the limiter and then raises
`RatelimitError`; any other status raises via `raise_for_status`; a transport
failure propagates as `ConnectionError`.  The endpoint state is returned next
to the outcome because the limiter mutation of the 429 branch persists even
though an exception is raised. -/
def Endpoint.activate (ep : Endpoint) (now : Int) (t : TResult) :
    Endpoint × Except PyErr Unit :=
  match t with
  | .netFail => (ep, .error .connectionError)
  | .resp r =>
    if r.ok then
      match update_ratelimiter ep.ratelimiter now r.headers with
      | .ok rl => ({ ep with ratelimiter := rl }, .ok ())
      | .error e => (ep, .error e)
    else if r.status = TMR then
      match update_ratelimiter ep.ratelimiter now r.headers with
      | .ok rl => ({ ep with ratelimiter := rl }, .error .ratelimitError)
      | .error e => (ep, .error e)
    else
      (ep, .error .httpError)

/-- Result of one `Endpoint.request` call: the endpoint state afterwards, how
many `activate()` calls were made, whether the main HTTP request was actually
issued to the transport, and the returned response or raised exception. -/
structure ReqResult : Type where
  ep : Endpoint
  activations : Nat
  mainCalled : Bool
  result : Except PyErr Response
  deriving DecidableEq

/-- Embedding of `Endpoint.request`.  When inactive: `activate()`; a
`RatelimitError` from it triggers exactly one further `activate()`, whose
`HTTPError`-class failures are re-raised wrapped; a non-ratelimit
`HTTPError` from the first attempt is re-raised wrapped; other exception
classes (`KeyError`, `ConnectionError`) match neither `except` clause and
propagate unwrapped.  On activation success the endpoint is marked active,
`lock()` is awaited, and the main request is issued, maintaining the limiter
from its headers.  (Header merging for the outgoing request carries no
observable state and is not modelled; the limiter wait changes no state.) -/
def Endpoint.request (ep : Endpoint) (now : Int) (t : Transport) : ReqResult :=
  let phase1 : Endpoint × Nat × Option PyErr × Nat :=
    if ep.active then (ep, 0, none, 0)
    else
      match ep.activate now (t 0) with
      | (ep1, .ok _) => ({ ep1 with active := true }, 1, none, 1)
      | (ep1, .error e) =>
        if e = .ratelimitError then
          match ep1.activate now (t 1) with
          | (ep2, .ok _) => ({ ep2 with active := true }, 2, none, 2)
          | (ep2, .error e2) =>
            (ep2, 2, some (if e2.isHTTPError then .wrappedHTTPError e2 else e2), 2)
        else
          (ep1, 1, some (if e.isHTTPError then .wrappedHTTPError e else e), 1)
  match phase1 with
  | (ep', acts, some e, _) => ⟨ep', acts, false, .error e⟩
  | (ep', acts, none, idx) =>
    match t idx with
    | .netFail => ⟨ep', acts, true, .error .connectionError⟩
    | .resp r =>
      if r.ok then
        match update_ratelimiter ep'.ratelimiter now r.headers with
        | .ok rl => ⟨{ ep' with ratelimiter := rl }, acts, true, .ok r⟩
        | .error e => ⟨ep', acts, true, .error e⟩
      else if r.status = TMR then
        match update_ratelimiter ep'.ratelimiter now r.headers with
        | .ok rl => ⟨{ ep' with ratelimiter := rl }, acts, true, .error .ratelimitError⟩
        | .error e => ⟨ep', acts, true, .error e⟩
      else
        ⟨ep', acts, true, .error .httpError⟩

/-- Embedding of `Painter.colour`: a `request()` through the get-pixel
endpoint, then `Colour.from_hex(response.json()["rgb"])`; a missing `"rgb"`
key raises `KeyError`. -/
def Painter.colour (getEp : Endpoint) (now : Int) (tGet : Transport) :
    Except PyErr Colour × Endpoint :=
  let r := getEp.request now tGet
  match r.result with
  | .error e => (.error e, r.ep)
  | .ok resp =>
    match resp.rgb with
    | none => (.error (.keyError "rgb"), r.ep)
    | some s =>
      match Colour.from_hex s with
      | .error e => (.error e, r.ep)
      | .ok c => (.ok c, r.ep)

/-- Result of one `Painter.paint` call: the outcome, whether the POST to
`/set_pixel` was issued to the transport, and the JSON payload of that POST
when it was issued. -/
structure PaintResult : Type where
  result : Except PyErr Unit
  wrote : Bool
  payload : Option (Int × Int × String)
  getEp : Endpoint
  setEp : Endpoint
  deriving DecidableEq

/-- Embedding of `Painter.paint`.  With `check` true the pre-check
`self.colour(x, y)` runs inside `try: ... except requests.HTTPError`: an
equal colour short-circuits with no write; an `HTTPError`-class failure is
swallowed (logged only); any other exception class (e.g. a transport
`ConnectionError`) propagates.  If not short-circuited, the POST through the
write endpoint is issued with payload `{"x": x, "y": y, "rgb": colour.hex()}`
and any exception from it propagates (the `KeyError` guard around the
`"message"` field of the response only affects logging). -/
def Painter.paint (getEp setEp : Endpoint) (now : Int) (tGet tSet : Transport)
    (x y : Int) (colour : Colour) (check : Bool) : PaintResult :=
  let pre : Option PyErr × Bool × Endpoint :=
    if check then
      match Painter.colour getEp now tGet with
      | (.ok c, g) => (none, c = colour, g)
      | (.error e, g) => (if e.isHTTPError then none else some e, false, g)
    else (none, false, getEp)
  match pre with
  | (some e, _, g) => ⟨.error e, false, none, g, setEp⟩
  | (none, true, g) => ⟨.ok (), false, none, g, setEp⟩
  | (none, false, g) =>
    let r := setEp.request now tSet
    match r.result with
    | .error e =>
      ⟨.error e, r.mainCalled,
       if r.mainCalled then some (x, y, colour.hex) else none, g, r.ep⟩
    | .ok _ => ⟨.ok (), r.mainCalled, some (x, y, colour.hex), g, r.ep⟩

/-- One RGBA pixel of a job image (`uint8` channels in the source; modelled
as integers, matching the `Colour` channels they are copied into). -/
structure RGBA : Type where
  r : Int
  g : Int
  b : Int
  a : Int
  deriving Repr, DecidableEq

/-- The `Job` dataclass of `protector.py`: an RGBA image (row-major list of
rows, numpy shape `(rows, cols, 4)`) and the canvas origin of its top-left
pixel. -/
structure Job : Type where
  image : List (List RGBA)
  originX : Int
  originY : Int
  deriving Repr, DecidableEq

/-- The numpy `image.shape[1]` of a rectangular row-major image. -/
def shape1 (image : List (List RGBA)) : Nat := (image.headD []).length

/-- Modelled from the spec: the remote canvas semantics of `POST /set_pixel`
(§6 of the spec) — a successful `Painter.paint` leaves the 3 bytes of pixel
`(x, y)` of the canvas equal to the painted colour.  This server-side effect
is not code of this repository; `Protector` is modelled against the
`Painter` interface, counting `painter.paint(...)` invocations. -/
def setPixel (canvas : List Int) (width : Nat) (x y : Nat) (c : Colour) :
    List Int :=
  (((canvas.set ((x + width * y) * 3) c.r).set
    ((x + width * y) * 3 + 1) c.g).set
    ((x + width * y) * 3 + 2) c.b)

/-- State threaded through one `Protector.activate` pass: the remote canvas
bytes, the current in-memory `Sketch` of the protector, the `painter.paint` calls
issued so far, and counters of `painter.sketch()` / `painter.paint` calls
(used to index the failure scripts). -/
structure PassSt : Type where
  canvas : List Int
  sk : Sketch
  paints : List (Int × Int × Colour)
  calls : Nat
  pcalls : Nat
  deriving Repr, DecidableEq

/-- One `painter.sketch()` call: the `k`-th call fails (raising a
network/HTTP error out of `Painter.sketch`) exactly when `sf k` is true;
otherwise it returns a `Sketch` of the current remote canvas. -/
def sketchCall (sf : Nat → Bool) (width height : Nat) (st : PassSt) :
    Except PyErr (Sketch × PassSt) :=
  if sf st.calls then .error .httpError
  else .ok (⟨st.canvas, width, height⟩, { st with calls := st.calls + 1 })

/-- Embedding of the per-pixel body of `Protector.activate` (lines 71-98 of
`protector.py`).  A crucial point of fidelity: the handlers read
`except core.NetworkError`, but `core.py` defines no `NetworkError`, so the
moment any exception reaches one of these `try` blocks, evaluating the
exception class of the handler itself raises
`AttributeError: module has no attribute NetworkError`, which propagates.
The `pf` script says which `painter.paint` calls fail. -/
def protectPixel (sf pf : Nat → Bool) (width height : Nat)
    (image : List (List RGBA)) (imageX imageY : Int) (x y : Nat)
    (st : PassSt) : Except PyErr PassSt :=
  let px := (image.getD y []).getD x ⟨0, 0, 0, 0⟩
  if px.a ≠ 0 then
    match Colour.from_triple [px.r, px.g, px.b] with
    | .error e => .error e
    | .ok goal =>
      let canvasX := imageX + (x : Int)
      let canvasY := imageY + (y : Int)
      match st.sk.getitem (canvasX, canvasY) with
      | .error e => .error e
      | .ok current =>
        if current ≠ goal then
          if pf st.pcalls then .error (.attributeError "NetworkError")
          else
            let st' : PassSt :=
              { st with
                canvas := setPixel st.canvas width canvasX.toNat canvasY.toNat goal,
                paints := st.paints ++ [(canvasX, canvasY, goal)],
                pcalls := st.pcalls + 1 }
            match sketchCall sf width height st' with
            | .error _ => .error (.attributeError "NetworkError")
            | .ok (sk, st'') => .ok { st'' with sk := sk }
        else .ok st
  else .ok st

/-- A bounded `for` loop in the exception monad: run `f` at indices
`i, i+1, ..., i+n-1`, threading the state and stopping at the first raised
exception. -/
def loopE {σ : Type} (f : Nat → σ → Except PyErr σ) :
    Nat → Nat → σ → Except PyErr σ
  | 0, _, s => .ok s
  | n + 1, i, s =>
    match f i s with
    | .error e => .error e
    | .ok s' => loopE f n (i + 1) s'

/-- The double raster scan `for y in range(image.shape[0]): for x in
range(image.shape[1]): ...` of one job. -/
def scanImage (sf pf : Nat → Bool) (width height : Nat)
    (image : List (List RGBA)) (imageX imageY : Int) (st : PassSt) :
    Except PyErr PassSt :=
  loopE
    (fun y st =>
      loopE (fun x st => protectPixel sf pf width height image imageX imageY x y st)
        (shape1 image) 0 st)
    image.length 0 st

/-- Processing of one job inside a pass: fetch a fresh sketch (the broken
`except core.NetworkError` turns any failure into a propagating
`AttributeError`), resolve negative origin components against the sketch's
dimensions, then raster-scan the image. -/
def runJob (sf pf : Nat → Bool) (width height : Nat) (job : Job)
    (st : PassSt) : Except PyErr PassSt :=
  match sketchCall sf width height st with
  | .error _ => .error (.attributeError "NetworkError")
  | .ok (sk, st') =>
    let imageX := if job.originX < 0 then (sk.width : Int) + job.originX else job.originX
    let imageY := if job.originY < 0 then (sk.height : Int) + job.originY else job.originY
    scanImage sf pf width height job.image imageX imageY { st' with sk := sk }

/-- One full pass of `Protector.activate` (one iteration of the `while`
loop) over the job list. -/
def runPass (sf pf : Nat → Bool) (width height : Nat) :
    List Job → PassSt → Except PyErr PassSt
  | [], st => .ok st
  | job :: rest, st =>
    match runJob sf pf width height job st with
    | .error e => .error e
    | .ok st' => runPass sf pf width height rest st'

/-- The failure script of a fault-free transport. -/
def noFail : Nat → Bool := fun _ => false

/-- Initial pass state over a given remote canvas (the protector holds no
sketch before its first `painter.sketch()` call). -/
def initSt (canvas : List Int) : PassSt :=
  ⟨canvas, ⟨[], 0, 0⟩, [], 0, 0⟩

/-- Normalised coordinate used to phrase the indexing claims: add the length
once when the index is negative, as `Sketch.__getitem__` does. -/
def normCoord (len : Nat) (i : Int) : Nat :=
  (if i < 0 then (len : Int) + i else i).toNat

/-- Resolution of a possibly-negative job origin component against the
canvas size, as done at the top of the per-job loop. -/
def resolveOrigin (len : Nat) (i : Int) : Int :=
  if i < 0 then (len : Int) + i else i

/-- Helper: the value of a hex digit is below 16, and lowercasing-then-uppercasing
reproduces the uppercased digit. -/
theorem hexVal_spec (c : Char) (v : Nat) (h : hexVal c = some v) :
    v < 16 ∧ Char.toUpper (lowerHexDigit v) = Char.toUpper c := by
  simp only [hexVal, hexTable, List.lookup] at h
  repeat' split at h
  all_goals
    try (rename_i hc
         obtain rfl := eq_of_beq hc
         obtain rfl : _ = v := Option.some_injective _ h
         exact ⟨by decide, by decide⟩)
  exact absurd h (by simp)

/-- Helper: the hex pair of a byte assembled from two digit values. -/
theorem hexPair_of_lt (v0 v1 : Nat) (h0 : v0 < 16) (h1 : v1 < 16) :
    hexPair ((16 * v0 + v1 : Nat) : Int) = [lowerHexDigit v0, lowerHexDigit v1] := by
  have e1 : (16 * v0 + v1) / 16 % 16 = v0 := by omega
  have e2 : (16 * v0 + v1) % 16 = v1 := by omega
  simp only [hexPair, Int.toNat_natCast, e1, e2]

/-- Helper: `Colour.from_hex` on six hex digits, computed. -/
theorem from_hex_chars (c0 c1 c2 c3 c4 c5 : Char) (v0 v1 v2 v3 v4 v5 : Nat)
    (h0 : hexVal c0 = some v0) (h1 : hexVal c1 = some v1)
    (h2 : hexVal c2 = some v2) (h3 : hexVal c3 = some v3)
    (h4 : hexVal c4 = some v4) (h5 : hexVal c5 = some v5) :
    Colour.from_hex ⟨[c0, c1, c2, c3, c4, c5]⟩ =
      .ok ⟨((16 * v0 + v1 : Nat) : Int), ((16 * v2 + v3 : Nat) : Int),
           ((16 * v4 + v5 : Nat) : Int)⟩ := by
  simp only [Colour.from_hex, String.length, bytesFromHex, h0, h1, h2, h3, h4, h5,
    Colour.from_triple]
  norm_num [List.getD]

/-- Helper: inversion for `bytesFromHex` on two leading characters. -/
theorem bytesFromHex_cons_elim (c0 c1 : Char) (rest : List Char) (bs : List Int)
    (h : bytesFromHex (c0 :: c1 :: rest) = some bs) :
    ∃ v0 v1 bs', hexVal c0 = some v0 ∧ hexVal c1 = some v1 ∧
      bytesFromHex rest = some bs' ∧ bs = ((16 * v0 + v1 : Nat) : Int) :: bs' := by
  simp only [bytesFromHex] at h
  rcases e0 : hexVal c0 with _ | v0 <;> rw [e0] at h <;>
    rcases e1 : hexVal c1 with _ | v1 <;> rw [e1] at h <;> try simp at h
  rcases e2 : bytesFromHex rest with _ | bs' <;> rw [e2] at h <;> try simp at h
  exact ⟨v0, v1, bs', rfl, rfl, rfl, h.symm⟩

/-- Helper: inversion for a successful `Colour.from_hex`. -/
theorem from_hex_ok_elim (s : String) (c : Colour)
    (h : Colour.from_hex s = .ok c) :
    ∃ c0 c1 c2 c3 c4 c5 v0 v1 v2 v3 v4 v5,
      s.data = [c0, c1, c2, c3, c4, c5] ∧
      hexVal c0 = some v0 ∧ hexVal c1 = some v1 ∧ hexVal c2 = some v2 ∧
      hexVal c3 = some v3 ∧ hexVal c4 = some v4 ∧ hexVal c5 = some v5 ∧
      c = ⟨((16 * v0 + v1 : Nat) : Int), ((16 * v2 + v3 : Nat) : Int),
           ((16 * v4 + v5 : Nat) : Int)⟩ := by
  obtain ⟨cs⟩ := s
  have hlen : cs.length = 6 := by
    by_contra hne
    simp only [Colour.from_hex, String.length] at h
    rw [if_pos hne] at h
    exact absurd h (by simp)
  match cs, hlen with
  | [c0, c1, c2, c3, c4, c5], _ =>
    simp only [Colour.from_hex, String.length] at h
    rw [if_neg (by simp)] at h
    rcases e : bytesFromHex [c0, c1, c2, c3, c4, c5] with _ | bs <;> rw [e] at h
    · exact absurd h (by simp)
    obtain ⟨v0, v1, r1, e0, e1, er1, rfl⟩ := bytesFromHex_cons_elim _ _ _ _ e
    obtain ⟨v2, v3, r2, e2, e3, er2, rfl⟩ := bytesFromHex_cons_elim _ _ _ _ er1
    obtain ⟨v4, v5, r3, e4, e5, er3, rfl⟩ := bytesFromHex_cons_elim _ _ _ _ er2
    have hr3 : r3 = [] := by
      simp only [bytesFromHex] at er3
      exact (Option.some_injective _ er3).symm
    subst hr3
    simp only [Colour.from_triple] at h
    norm_num [List.getD] at h
    exact ⟨c0, c1, c2, c3, c4, c5, v0, v1, v2, v3, v4, v5, rfl,
      e0, e1, e2, e3, e4, e5, h.symm⟩

/-- C8: for every six-character string of hex digits (either letter case),
`Colour.from_hex(s).hex() == s.upper()`; and `from_hex` raises `ValueError`
for every string whose length is not 6. -/
theorem colour_from_hex_roundtrip :
    (∀ s : String, s.length = 6 → (∀ ch ∈ s.data, (hexVal ch).isSome = true) →
      ∃ c : Colour, Colour.from_hex s = .ok c ∧ c.hex = pyUpper s) ∧
    (∀ s : String, s.length ≠ 6 →
      Colour.from_hex s = .error (.valueError "Must provide a six digit hex string")) := by
  constructor
  · intro s hlen hhex
    obtain ⟨cs⟩ := s
    have hlen' : cs.length = 6 := hlen
    match cs, hlen', hhex with
    | [c0, c1, c2, c3, c4, c5], _, hhex =>
      obtain ⟨v0, e0⟩ := Option.isSome_iff_exists.1 (hhex c0 (by simp))
      obtain ⟨v1, e1⟩ := Option.isSome_iff_exists.1 (hhex c1 (by simp))
      obtain ⟨v2, e2⟩ := Option.isSome_iff_exists.1 (hhex c2 (by simp))
      obtain ⟨v3, e3⟩ := Option.isSome_iff_exists.1 (hhex c3 (by simp))
      obtain ⟨v4, e4⟩ := Option.isSome_iff_exists.1 (hhex c4 (by simp))
      obtain ⟨v5, e5⟩ := Option.isSome_iff_exists.1 (hhex c5 (by simp))
      obtain ⟨l0, u0⟩ := hexVal_spec _ _ e0
      obtain ⟨l1, u1⟩ := hexVal_spec _ _ e1
      obtain ⟨l2, u2⟩ := hexVal_spec _ _ e2
      obtain ⟨l3, u3⟩ := hexVal_spec _ _ e3
      obtain ⟨l4, u4⟩ := hexVal_spec _ _ e4
      obtain ⟨l5, u5⟩ := hexVal_spec _ _ e5
      refine ⟨_, from_hex_chars c0 c1 c2 c3 c4 c5 v0 v1 v2 v3 v4 v5
        e0 e1 e2 e3 e4 e5, ?_⟩
      simp only [Colour.hex, pyUpper, hexPair_of_lt _ _ l0 l1,
        hexPair_of_lt _ _ l2 l3, hexPair_of_lt _ _ l4 l5]
      simp [u0, u1, u2, u3, u4, u5]
  · intro s hlen
    simp only [Colour.from_hex]
    rw [if_pos hlen]

/-- C8 witness: a mixed-case hex string round-trips to its uppercase form,
and a two-character string raises `ValueError`. -/
theorem colour_from_hex_roundtrip_witness :
    (∃ c : Colour, Colour.from_hex "aAbB0f" = .ok c ∧ c.hex = pyUpper "aAbB0f") ∧
    Colour.from_hex "ff" = .error (.valueError "Must provide a six digit hex string") :=
  ⟨colour_from_hex_roundtrip.1 "aAbB0f" (by decide) (by decide),
   colour_from_hex_roundtrip.2 "ff" (by decide)⟩

/-- C9 counterexample: direct construction (`Colour(256, 0, 0)`, reachable
also as `Colour.from_triple((256, 0, 0))` on a tuple of ints) performs no
range check, so a `Colour` with a channel outside `[0, 255]` is
constructible, refuting the claim that every way of constructing a `Colour`
establishes the channel-range invariant. -/
theorem colour_unchecked_construction_cex :
    Colour.from_triple [256, 0, 0] = .ok ⟨256, 0, 0⟩ ∧ ¬((Colour.mk 256 0 0).r ≤ 255) := by
  exact ⟨by decide, by decide⟩

/-- C9 amended: colours built by `from_triple` from a byte string (all
elements in `[0, 255]`), or by `from_hex`, have all three channels in
`[0, 255]`; direct construction and `from_triple` on an arbitrary int tuple
are unchecked. -/
theorem colour_range_invariant_amended :
    (∀ (l : List Int) (c : Colour), (∀ v ∈ l, 0 ≤ v ∧ v ≤ 255) →
      Colour.from_triple l = .ok c →
      0 ≤ c.r ∧ c.r ≤ 255 ∧ 0 ≤ c.g ∧ c.g ≤ 255 ∧ 0 ≤ c.b ∧ c.b ≤ 255) ∧
    (∀ (s : String) (c : Colour), Colour.from_hex s = .ok c →
      0 ≤ c.r ∧ c.r ≤ 255 ∧ 0 ≤ c.g ∧ c.g ≤ 255 ∧ 0 ≤ c.b ∧ c.b ≤ 255) := by
  constructor
  · intro l c hran h
    have hlen : l.length = 3 := by
      by_contra hne
      simp only [Colour.from_triple] at h
      rw [if_pos hne] at h
      exact absurd h (by simp)
    match l, hlen, hran with
    | [a, b, d], _, hran =>
      simp only [Colour.from_triple] at h
      norm_num [List.getD] at h
      obtain ⟨ha1, ha2⟩ := hran a (by simp)
      obtain ⟨hb1, hb2⟩ := hran b (by simp)
      obtain ⟨hd1, hd2⟩ := hran d (by simp)
      obtain rfl := h.symm
      exact ⟨ha1, ha2, hb1, hb2, hd1, hd2⟩
  · intro s c h
    obtain ⟨c0, c1, c2, c3, c4, c5, v0, v1, v2, v3, v4, v5,
      _, e0, e1, e2, e3, e4, e5, rfl⟩ := from_hex_ok_elim s c h
    have l0 := (hexVal_spec _ _ e0).1
    have l1 := (hexVal_spec _ _ e1).1
    have l2 := (hexVal_spec _ _ e2).1
    have l3 := (hexVal_spec _ _ e3).1
    have l4 := (hexVal_spec _ _ e4).1
    have l5 := (hexVal_spec _ _ e5).1
    refine ⟨?_, ?_, ?_, ?_, ?_, ?_⟩ <;> simp only [] <;> omega

/-- C9 amended witness: a byte triple in range yields an in-range colour. -/
theorem colour_range_invariant_amended_witness :
    0 ≤ (Colour.mk 10 20 30).r ∧ (Colour.mk 10 20 30).r ≤ 255 ∧
    0 ≤ (Colour.mk 10 20 30).g ∧ (Colour.mk 10 20 30).g ≤ 255 ∧
    0 ≤ (Colour.mk 10 20 30).b ∧ (Colour.mk 10 20 30).b ≤ 255 :=
  colour_range_invariant_amended.1 [10, 20, 30] ⟨10, 20, 30⟩ (by decide) (by decide)

/-- C4: `unlock` sets `guard_time = now + reset` exactly when `remaining` is
zero and leaves it untouched otherwise; `lock` returns immediately once
`guard_time` is passed and otherwise sleeps exactly `guard_time - now`; in
particular `unlock(remaining=0, reset=5)` at `T` makes a `lock()` at `T+1`
return at `T+5 ≥ T+5`, and on a fresh limiter `unlock(remaining=3, ...)`
leaves a subsequent `lock()` immediate. -/
theorem ratelimiter_unlock_lock :
    (∀ (rl : Ratelimiter) (now : Int) (lim : Int) (reset : Int),
      (rl.unlock now 0 lim reset).guard_time = now + reset) ∧
    (∀ (rl : Ratelimiter) (now : Int) (rem lim : Int) (reset : Int), rem ≠ 0 →
      (rl.unlock now rem lim reset).guard_time = rl.guard_time) ∧
    (∀ (rl : Ratelimiter) (now : Int), rl.guard_time ≤ now →
      rl.lockWait now = 0) ∧
    (∀ (rl : Ratelimiter) (now : Int), now < rl.guard_time →
      rl.lockWait now = rl.guard_time - now ∧ rl.lockReturn now = rl.guard_time) ∧
    (∀ (rl : Ratelimiter) (T : Int) (lim : Int),
      (rl.unlock T 0 lim 5).lockReturn (T + 1) = T + 5 ∧ T + 5 ≤ T + 5) ∧
    (∀ (T : Int) (lim : Int) (reset : Int),
      ((Ratelimiter.init T 0).unlock T 3 lim reset).lockWait (T + 1) = 0) := by
  refine ⟨?_, ?_, ?_, ?_, ?_, ?_⟩
  · intro rl now lim reset
    simp [Ratelimiter.unlock]
  · intro rl now rem lim reset h
    simp [Ratelimiter.unlock, h]
  · intro rl now h
    simp only [Ratelimiter.lockWait]
    rw [if_neg (by linarith)]
  · intro rl now h
    have hw : rl.lockWait now = rl.guard_time - now := by
      simp only [Ratelimiter.lockWait, if_pos h]
    refine ⟨hw, ?_⟩
    simp only [Ratelimiter.lockReturn, hw]
    ring
  · intro rl T lim
    have hg : (rl.unlock T 0 lim 5).guard_time = T + 5 := by simp [Ratelimiter.unlock]
    constructor
    · simp only [Ratelimiter.lockReturn, Ratelimiter.lockWait, hg]
      rw [if_pos (by linarith)]
      ring
    · linarith
  · intro T lim reset
    have hg : ((Ratelimiter.init T 0).unlock T 3 lim reset).guard_time = T := by
      simp [Ratelimiter.unlock, Ratelimiter.init]
    simp only [Ratelimiter.lockWait, hg]
    rw [if_neg (by linarith)]

/-- C4 witness: the unlock/lock contract at concrete inputs. -/
theorem ratelimiter_unlock_lock_witness :
    (Ratelimiter.unlock ⟨2⟩ 10 0 5 7).guard_time = 17 ∧
    (Ratelimiter.unlock ⟨2⟩ 10 4 5 7).guard_time = 2 ∧
    Ratelimiter.lockWait ⟨3⟩ 8 = 0 ∧
    (Ratelimiter.lockWait ⟨9⟩ 8 = 1 ∧ Ratelimiter.lockReturn ⟨9⟩ 8 = 9) ∧
    (Ratelimiter.unlock ⟨2⟩ 10 0 5 5).lockReturn 11 = 15 ∧
    ((Ratelimiter.init 10 0).unlock 10 3 5 7).lockWait 11 = 0 := by
  refine ⟨?_, ?_, ?_, ?_, ?_, ?_⟩
  · have := ratelimiter_unlock_lock.1 ⟨2⟩ 10 5 7
    norm_num at this
    exact this
  · exact ratelimiter_unlock_lock.2.1 ⟨2⟩ 10 4 5 7 (by decide)
  · exact ratelimiter_unlock_lock.2.2.1 ⟨3⟩ 8 (by norm_num)
  · have := ratelimiter_unlock_lock.2.2.2.1 ⟨9⟩ 8 (by norm_num)
    norm_num at this
    exact this
  · have := ratelimiter_unlock_lock.2.2.2.2.1 ⟨2⟩ 10 5
    norm_num at this
    exact this
  · have := ratelimiter_unlock_lock.2.2.2.2.2 10 5 7
    norm_num at this
    exact this

/-- C6: `update_ratelimiter` consults the header sets in the fixed order
(`requests-remaining`/`requests-limit`/`requests-reset`, then
`cooldown-reset` as `remaining=0`, then `retry-after` as `remaining=0`) and
uses the first fully present one; with none present it raises
*MissingRateLimitInfo* instead of updating the limiter. -/
theorem update_ratelimiter_header_priority :
    ∀ (rl : Ratelimiter) (now : Int) (h : Headers),
      (∀ rem lim reset : Int,
        h.find "requests-remaining" = some rem →
        h.find "requests-limit" = some lim →
        h.find "requests-reset" = some reset →
        update_ratelimiter rl now h = .ok (rl.unlock now rem lim reset)) ∧
      (∀ reset : Int,
        (h.find "requests-remaining" = none ∨ h.find "requests-limit" = none ∨
          h.find "requests-reset" = none) →
        h.find "cooldown-reset" = some reset →
        update_ratelimiter rl now h = .ok (rl.unlock now 0 0 reset)) ∧
      (∀ reset : Int,
        (h.find "requests-remaining" = none ∨ h.find "requests-limit" = none ∨
          h.find "requests-reset" = none) →
        h.find "cooldown-reset" = none →
        h.find "retry-after" = some reset →
        update_ratelimiter rl now h = .ok (rl.unlock now 0 0 reset)) ∧
      ((h.find "requests-remaining" = none ∨ h.find "requests-limit" = none ∨
          h.find "requests-reset" = none) →
        h.find "cooldown-reset" = none →
        h.find "retry-after" = none →
        update_ratelimiter rl now h = .error MissingRateLimitInfo) := by
  intro rl now h
  refine ⟨?_, ?_, ?_, ?_⟩
  · intro rem lim reset h1 h2 h3
    simp [update_ratelimiter, h1, h2, h3]
  · intro reset hmiss hcd
    rcases hmiss with hm | hm | hm <;> simp [update_ratelimiter, hm, hcd]
  · intro reset hmiss hcd hra
    rcases hmiss with hm | hm | hm <;> simp [update_ratelimiter, hm, hcd, hra]
  · intro hmiss hcd hra
    rcases hmiss with hm | hm | hm <;> simp [update_ratelimiter, hm, hcd, hra]

/-- C6 witness: the four priority cases at concrete header maps. -/
theorem update_ratelimiter_header_priority_witness :
    update_ratelimiter ⟨2⟩ 10
        [("requests-remaining", 4), ("requests-limit", 9), ("requests-reset", 7),
         ("cooldown-reset", 99)] =
      .ok (Ratelimiter.unlock ⟨2⟩ 10 4 9 7) ∧
    update_ratelimiter ⟨2⟩ 10 [("requests-remaining", 4), ("cooldown-reset", 99)] =
      .ok (Ratelimiter.unlock ⟨2⟩ 10 0 0 99) ∧
    update_ratelimiter ⟨2⟩ 10 [("retry-after", 42)] =
      .ok (Ratelimiter.unlock ⟨2⟩ 10 0 0 42) ∧
    update_ratelimiter ⟨2⟩ 10 [("unrelated", 1)] = .error MissingRateLimitInfo := by
  refine ⟨?_, ?_, ?_, ?_⟩
  · have := (update_ratelimiter_header_priority ⟨2⟩ 10
      [("requests-remaining", 4), ("requests-limit", 9), ("requests-reset", 7),
       ("cooldown-reset", 99)]).1 4 9 7 (by decide) (by decide) (by decide)
    simpa using this
  · have := (update_ratelimiter_header_priority ⟨2⟩ 10
      [("requests-remaining", 4), ("cooldown-reset", 99)]).2.1 99
      (by right; left; decide) (by decide)
    simpa using this
  · have := (update_ratelimiter_header_priority ⟨2⟩ 10
      [("retry-after", 42)]).2.2.1 42 (by left; decide) (by decide) (by decide)
    simpa using this
  · exact (update_ratelimiter_header_priority ⟨2⟩ 10
      [("unrelated", 1)]).2.2.2 (by left; decide) (by decide) (by decide)

/-- Helper: a Python slice `l[o:o+3]` that lies inside the list is exactly
the three elements at offsets `o`, `o+1`, `o+2`. -/
theorem pySlice_triple (l : List Int) (o : Nat) (h : o + 3 ≤ l.length) :
    pySlice l (o : Int) ((o : Int) + 3) =
      [l.getD o 0, l.getD (o + 1) 0, l.getD (o + 2) 0] := by
  have h1 : pyIdx l.length (o : Int) = o := by
    simp only [pyIdx]
    rw [if_neg (by omega)]
    omega
  have h2 : pyIdx l.length ((o : Int) + 3) = o + 3 := by
    simp only [pyIdx]
    rw [if_neg (by omega)]
    have : ((o : Int) + 3).toNat = o + 3 := by omega
    omega
  simp only [pySlice, h1, h2]
  rw [List.drop_take]
  have h3 : o + 3 - o = 3 := by omega
  rw [h3]
  have ho : o < l.length := by omega
  have ho1 : o + 1 < l.length := by omega
  have ho2 : o + 2 < l.length := by omega
  rw [List.getD_eq_getElem l 0 ho, List.getD_eq_getElem l 0 ho1,
    List.getD_eq_getElem l 0 ho2,
    List.drop_eq_getElem_cons ho, List.drop_eq_getElem_cons ho1,
    List.drop_eq_getElem_cons ho2]
  rfl

/-- Helper: the length of a Python slice `l[o:o+3]` is clamped by the list
length. -/
theorem pySlice_length (l : List Int) (lo hi : Int) :
    (pySlice l lo hi).length = pyIdx l.length hi - pyIdx l.length lo := by
  simp only [pySlice, List.length_drop, List.length_take]
  have : pyIdx l.length hi ≤ l.length := by
    simp only [pyIdx]
    split <;> omega
  omega

/-- Helper: `Sketch.__getitem__` at non-negative coordinates whose 3-byte
slice fits in the buffer reads the bytes at offset `(x + width*y)*3`,
regardless of any relation between `x` and `width`. -/
theorem getitem_nonneg_eq (content : List Int) (W H : Nat) (x y : Int)
    (hx : 0 ≤ x) (hy : 0 ≤ y)
    (hin : ((x + W * y) * 3).toNat + 3 ≤ content.length) :
    (Sketch.mk content W H).getitem (x, y) =
      .ok ⟨content.getD (((x + W * y) * 3).toNat) 0,
           content.getD (((x + W * y) * 3).toNat + 1) 0,
           content.getD (((x + W * y) * 3).toNat + 2) 0⟩ := by
  have hwy : 0 ≤ (W : Int) * y := by positivity
  have hidx : 0 ≤ (x + W * y) * 3 := by positivity
  simp only [Sketch.getitem]
  rw [if_neg (by omega), if_neg (by omega)]
  have hcast : (x + (W : Int) * y) * 3 = ((((x + (W : Int) * y) * 3).toNat : Nat) : Int) := by
    omega
  rw [hcast, pySlice_triple _ _ (by omega)]
  rfl

/-- C7: for coordinates within one wraparound of the canvas bounds,
`sketch[x, y]` is the colour of the 3 bytes at offset
`(x' + width*y')*3` for the once-normalised coordinates, and in particular
`sketch[-1, -1] == sketch[width-1, height-1]`. -/
theorem sketch_getitem_spec :
    (∀ (content : List Int) (W H : Nat) (x y : Int),
      content.length = W * H * 3 →
      -(W : Int) ≤ x → x < W → -(H : Int) ≤ y → y < H →
      (Sketch.mk content W H).getitem (x, y) =
        .ok ⟨content.getD ((normCoord W x + W * normCoord H y) * 3) 0,
             content.getD ((normCoord W x + W * normCoord H y) * 3 + 1) 0,
             content.getD ((normCoord W x + W * normCoord H y) * 3 + 2) 0⟩) ∧
    (∀ (content : List Int) (W H : Nat), content.length = W * H * 3 →
      1 ≤ W → 1 ≤ H →
      (Sketch.mk content W H).getitem (-1, -1) =
        (Sketch.mk content W H).getitem ((W : Int) - 1, (H : Int) - 1)) := by
  have main : ∀ (content : List Int) (W H : Nat) (x y : Int),
      content.length = W * H * 3 →
      -(W : Int) ≤ x → x < W → -(H : Int) ≤ y → y < H →
      (Sketch.mk content W H).getitem (x, y) =
        .ok ⟨content.getD ((normCoord W x + W * normCoord H y) * 3) 0,
             content.getD ((normCoord W x + W * normCoord H y) * 3 + 1) 0,
             content.getD ((normCoord W x + W * normCoord H y) * 3 + 2) 0⟩ := by
    intro content W H x y hlen hx1 hx2 hy1 hy2
    simp only [Sketch.getitem]
    set xn : Int := if x < 0 then (W : Int) + x else x with hxn
    set yn : Int := if y < 0 then (H : Int) + y else y with hyn
    have hxn0 : 0 ≤ xn := by rw [hxn]; split <;> omega
    have hxnW : xn < W := by rw [hxn]; split <;> omega
    have hyn0 : 0 ≤ yn := by rw [hyn]; split <;> omega
    have hynH : yn < H := by rw [hyn]; split <;> omega
    have hnx : normCoord W x = xn.toNat := by
      simp only [normCoord, hxn]
    have hny : normCoord H y = yn.toNat := by
      simp only [normCoord, hyn]
    have hx' : xn = (xn.toNat : Int) := by omega
    have hy' : yn = (yn.toNat : Int) := by omega
    have hoff : (xn + (W : Int) * yn) * 3 =
        (((xn.toNat + W * yn.toNat) * 3 : Nat) : Int) := by
      push_cast
      rw [Int.toNat_of_nonneg hxn0, Int.toNat_of_nonneg hyn0]
    have hbound : (xn.toNat + W * yn.toNat) * 3 + 3 ≤ content.length := by
      rw [hlen]
      have h1 : xn.toNat + 1 ≤ W := by omega
      have h2 : yn.toNat + 1 ≤ H := by omega
      have h3 : W * yn.toNat ≤ W * (H - 1) :=
        Nat.mul_le_mul_left W (by omega)
      have h4 : xn.toNat + W * yn.toNat + 1 ≤ W * H := by
        have : W * (H - 1) + W = W * H := by
          cases H with
          | zero => omega
          | succ n => simp [Nat.mul_succ]
        omega
      omega
    rw [hoff]
    rw [pySlice_triple _ _ hbound]
    rw [hnx, hny]
    rfl
  refine ⟨main, ?_⟩
  intro content W H hlen hW hH
  rw [main content W H (-1) (-1) hlen (by omega) (by omega) (by omega) (by omega),
    main content W H ((W : Int) - 1) ((H : Int) - 1) hlen (by omega) (by omega)
      (by omega) (by omega)]
  have e1 : normCoord W (-1) = W - 1 := by simp only [normCoord]; omega
  have e2 : normCoord H (-1) = H - 1 := by simp only [normCoord]; omega
  have e3 : normCoord W ((W : Int) - 1) = W - 1 := by simp only [normCoord]; omega
  have e4 : normCoord H ((H : Int) - 1) = H - 1 := by simp only [normCoord]; omega
  rw [e1, e2, e3, e4]

/-- C7 witness: a 2×2 canvas, wrapped and straight indexing agree. -/
theorem sketch_getitem_spec_witness :
    (Sketch.mk [1, 2, 3, 4, 5, 6, 7, 8, 9, 10, 11, 12] 2 2).getitem (1, 0) =
      .ok ⟨4, 5, 6⟩ ∧
    (Sketch.mk [1, 2, 3, 4, 5, 6, 7, 8, 9, 10, 11, 12] 2 2).getitem (-1, -1) =
      (Sketch.mk [1, 2, 3, 4, 5, 6, 7, 8, 9, 10, 11, 12] 2 2).getitem
        ((2 : Int) - 1, (2 : Int) - 1) := by
  constructor
  · have := sketch_getitem_spec.1 [1, 2, 3, 4, 5, 6, 7, 8, 9, 10, 11, 12] 2 2 1 0
      (by decide) (by decide) (by decide) (by decide) (by decide)
    simpa [normCoord] using this
  · exact sketch_getitem_spec.2 [1, 2, 3, 4, 5, 6, 7, 8, 9, 10, 11, 12] 2 2
      (by decide) (by decide) (by decide)

/-- C10: `Sketch.__getitem__` has no upper bounds check: any non-negative
coordinates whose byte offset keeps the 3-byte slice inside the buffer read
successfully (even with `x ≥ width`, silently reading into a later row);
when the slice would extend past the buffer, the short slice fails
the length check of `from_triple`, raising `ValueError` rather than an
index error. -/
theorem sketch_getitem_no_upper_bound_check :
    (∀ (content : List Int) (W H : Nat) (x y : Int),
      content.length = W * H * 3 → 0 ≤ x → 0 ≤ y →
      ((x + W * y) * 3).toNat + 3 ≤ W * H * 3 →
      (Sketch.mk content W H).getitem (x, y) =
        .ok ⟨content.getD (((x + W * y) * 3).toNat) 0,
             content.getD (((x + W * y) * 3).toNat + 1) 0,
             content.getD (((x + W * y) * 3).toNat + 2) 0⟩) ∧
    (∀ (content : List Int) (W H : Nat) (x y : Int),
      content.length = W * H * 3 → 0 ≤ x → 0 ≤ y →
      W * H * 3 < ((x + W * y) * 3).toNat + 3 →
      (Sketch.mk content W H).getitem (x, y) =
        .error (.valueError
          "Must provide a three byte byte string or three tuple of ints")) := by
  constructor
  · intro content W H x y hlen hx hy hin
    exact getitem_nonneg_eq content W H x y hx hy (by omega)
  · intro content W H x y hlen hx hy hout
    have hwy : 0 ≤ (W : Int) * y := by positivity
    have hidx : 0 ≤ (x + W * y) * 3 := by positivity
    simp only [Sketch.getitem]
    rw [if_neg (by omega), if_neg (by omega)]
    have hshort : (pySlice content ((x + (W : Int) * y) * 3)
        ((x + (W : Int) * y) * 3 + 3)).length ≠ 3 := by
      rw [pySlice_length]
      simp only [pyIdx]
      rw [if_neg (by omega), if_neg (by omega)]
      omega
    simp only [Colour.from_triple]
    rw [if_pos hshort]

/-- C10 witness: on a 2×2 canvas, `sketch[2, 0]` silently reads the first
pixel of the second row, while `sketch[3, 1]` raises `ValueError`. -/
theorem sketch_getitem_no_upper_bound_check_witness :
    (Sketch.mk [1, 2, 3, 4, 5, 6, 7, 8, 9, 10, 11, 12] 2 2).getitem (2, 0) =
      .ok ⟨7, 8, 9⟩ ∧
    (Sketch.mk [1, 2, 3, 4, 5, 6, 7, 8, 9, 10, 11, 12] 2 2).getitem (3, 1) =
      .error (.valueError
        "Must provide a three byte byte string or three tuple of ints") := by
  constructor
  · have := sketch_getitem_no_upper_bound_check.1
      [1, 2, 3, 4, 5, 6, 7, 8, 9, 10, 11, 12] 2 2 2 0
      (by decide) (by decide) (by decide) (by decide)
    simpa using this
  · exact sketch_getitem_no_upper_bound_check.2
      [1, 2, 3, 4, 5, 6, 7, 8, 9, 10, 11, 12] 2 2 3 1
      (by decide) (by decide) (by decide) (by decide)

/-- Helper: once an endpoint is active, `request()` always issues the main
HTTP request to the transport. -/
theorem request_mainCalled_of_active (ep : Endpoint) (now : Int) (t : Transport)
    (h : ep.active = true) : (ep.request now t).mainCalled = true := by
  cases e : t 0 with
  | netFail => simp [Endpoint.request, h, e]
  | resp r =>
    simp only [Endpoint.request, h, e]
    repeat' split
    all_goals first | rfl | simp_all

/-- C3 counterexample: a transport-level connection failure of the first
activation probe is a non-ratelimit failure of the first activation, yet
`request()` propagates it raw (`ConnectionError`), not as a wrapped
`HTTPError` — only `requests.HTTPError` subclasses are caught and wrapped. -/
theorem endpoint_request_unwrapped_failure_cex :
    ((Endpoint.mk "GET" "https://pixels.pythondiscord.com/get_pixel" ⟨0⟩ false).request 0
      (fun _ => .netFail)).activations = 1 ∧
    ((Endpoint.mk "GET" "https://pixels.pythondiscord.com/get_pixel" ⟨0⟩ false).request 0
      (fun _ => .netFail)).result = .error .connectionError := by
  constructor <;> rfl

/-- C3 amended: on the first `request()` of an inactive endpoint, a 429 probe
followed by an ok probe yields exactly two activation calls, a successful
main request and an active endpoint; a non-ratelimit `HTTPError` failure of
the first activation, and any `HTTPError`-class failure of the second, are
propagated as a wrapped `HTTPError` (non-`HTTPError` exception classes such
as `ConnectionError` or the missing-rate-limit-headers `KeyError` propagate
unwrapped). -/
theorem endpoint_activation_retry :
    (∀ (ep : Endpoint) (now : Int) (t : Transport) (r0 r1 r2 : Response)
        (rl0 rl1 rl2 : Ratelimiter),
      ep.active = false →
      t 0 = .resp r0 → r0.ok = false → r0.status = TMR →
      update_ratelimiter ep.ratelimiter now r0.headers = .ok rl0 →
      t 1 = .resp r1 → r1.ok = true →
      update_ratelimiter rl0 now r1.headers = .ok rl1 →
      t 2 = .resp r2 → r2.ok = true →
      update_ratelimiter rl1 now r2.headers = .ok rl2 →
      (ep.request now t).activations = 2 ∧
      (ep.request now t).result = .ok r2 ∧
      (ep.request now t).ep.active = true) ∧
    (∀ (ep : Endpoint) (now : Int) (t : Transport) (r0 : Response),
      ep.active = false →
      t 0 = .resp r0 → r0.ok = false → r0.status ≠ TMR →
      (ep.request now t).activations = 1 ∧
      (ep.request now t).result = .error (.wrappedHTTPError .httpError)) ∧
    (∀ (ep : Endpoint) (now : Int) (t : Transport) (r0 : Response)
        (rl0 : Ratelimiter) (ep2 : Endpoint) (e2 : PyErr),
      ep.active = false →
      t 0 = .resp r0 → r0.ok = false → r0.status = TMR →
      update_ratelimiter ep.ratelimiter now r0.headers = .ok rl0 →
      Endpoint.activate ⟨ep.method, ep.url, rl0, false⟩ now (t 1) =
        (ep2, .error e2) →
      e2.isHTTPError = true →
      (ep.request now t).activations = 2 ∧
      (ep.request now t).result = .error (.wrappedHTTPError e2)) := by
  refine ⟨?_, ?_, ?_⟩
  · intro ep now t r0 r1 r2 rl0 rl1 rl2 hact ht0 hok0 hst0 hu0 ht1 hok1 hu1
      ht2 hok2 hu2
    have ha0 : ep.activate now (t 0) =
        ({ ep with ratelimiter := rl0 }, .error .ratelimitError) := by
      simp [Endpoint.activate, ht0, hok0, hst0, hu0]
    have ha1 : Endpoint.activate ⟨ep.method, ep.url, rl0, false⟩ now (t 1) =
        (⟨ep.method, ep.url, rl1, false⟩, .ok ()) := by
      simp [Endpoint.activate, ht1, hok1, hu1]
    simp [Endpoint.request, hact, ha0, ha1, ht2, hok2, hu2]
  · intro ep now t r0 hact ht0 hok0 hst0
    have ha0 : ep.activate now (t 0) = (ep, .error .httpError) := by
      simp [Endpoint.activate, ht0, hok0, hst0]
    simp [Endpoint.request, hact, ha0, PyErr.isHTTPError]
  · intro ep now t r0 rl0 ep2 e2 hact ht0 hok0 hst0 hu0 ha1 hhttp
    have ha0 : ep.activate now (t 0) =
        ({ ep with ratelimiter := rl0 }, .error .ratelimitError) := by
      simp [Endpoint.activate, ht0, hok0, hst0, hu0]
    simp [Endpoint.request, hact, ha0, ha1, hhttp]

/-- C3 amended witness: a scripted transport answering 429, then 200, then
200 yields two activation calls, a successful request, and an active
endpoint; a scripted 500 on the first probe yields one activation call and a
wrapped `HTTPError`. -/
theorem endpoint_activation_retry_witness :
    ((Endpoint.mk "GET" "https://pixels.pythondiscord.com/get_pixel" ⟨0⟩ false).request 0
        (fun n => if n = 0 then .resp ⟨429, [("cooldown-reset", 3)], none⟩
          else .resp ⟨200, [("requests-remaining", 5), ("requests-limit", 10),
            ("requests-reset", 2)], none⟩)).activations = 2 ∧
    ((Endpoint.mk "GET" "https://pixels.pythondiscord.com/get_pixel" ⟨0⟩ false).request 0
        (fun n => if n = 0 then .resp ⟨429, [("cooldown-reset", 3)], none⟩
          else .resp ⟨200, [("requests-remaining", 5), ("requests-limit", 10),
            ("requests-reset", 2)], none⟩)).result =
      .ok ⟨200, [("requests-remaining", 5), ("requests-limit", 10),
        ("requests-reset", 2)], none⟩ ∧
    ((Endpoint.mk "GET" "https://pixels.pythondiscord.com/get_pixel" ⟨0⟩ false).request 0
        (fun n => if n = 0 then .resp ⟨429, [("cooldown-reset", 3)], none⟩
          else .resp ⟨200, [("requests-remaining", 5), ("requests-limit", 10),
            ("requests-reset", 2)], none⟩)).ep.active = true ∧
    ((Endpoint.mk "GET" "https://pixels.pythondiscord.com/get_pixel" ⟨0⟩ false).request 0
        (fun _ => .resp ⟨500, [], none⟩)).activations = 1 ∧
    ((Endpoint.mk "GET" "https://pixels.pythondiscord.com/get_pixel" ⟨0⟩ false).request 0
        (fun _ => .resp ⟨500, [], none⟩)).result =
      .error (.wrappedHTTPError .httpError) := by
  have h1 := endpoint_activation_retry.1
    (Endpoint.mk "GET" "https://pixels.pythondiscord.com/get_pixel" ⟨0⟩ false) 0
    (fun n => if n = 0 then .resp ⟨429, [("cooldown-reset", 3)], none⟩
      else .resp ⟨200, [("requests-remaining", 5), ("requests-limit", 10),
        ("requests-reset", 2)], none⟩)
    ⟨429, [("cooldown-reset", 3)], none⟩
    ⟨200, [("requests-remaining", 5), ("requests-limit", 10),
      ("requests-reset", 2)], none⟩
    ⟨200, [("requests-remaining", 5), ("requests-limit", 10),
      ("requests-reset", 2)], none⟩
    ⟨3⟩ ⟨3⟩ ⟨3⟩ rfl rfl (by decide) rfl (by decide) rfl (by decide) (by decide)
    rfl (by decide) (by decide)
  have h2 := endpoint_activation_retry.2.1
    (Endpoint.mk "GET" "https://pixels.pythondiscord.com/get_pixel" ⟨0⟩ false) 0
    (fun _ => .resp ⟨500, [], none⟩) ⟨500, [], none⟩
    rfl rfl (by decide) (by decide)
  exact ⟨h1.1, h1.2.1, h1.2.2, h2.1, h2.2⟩

/-- C5 counterexample: a transport-level connection failure during the
pre-check read is not swallowed — `except requests.HTTPError` does not match
`ConnectionError` — so `paint` propagates it and never issues the write,
refuting the claim that a network failure of the pre-check is swallowed with
the write still performed. -/
theorem paint_precheck_connection_error_cex :
    (Painter.paint ⟨"GET", "https://pixels.pythondiscord.com/get_pixel", ⟨0⟩, true⟩
        ⟨"POST", "https://pixels.pythondiscord.com/set_pixel", ⟨0⟩, true⟩ 0
        (fun _ => .netFail)
        (fun _ => .resp ⟨200, [("requests-remaining", 1), ("requests-limit", 5),
          ("requests-reset", 1)], none⟩)
        3 4 ⟨1, 2, 3⟩ true).result = .error .connectionError ∧
    (Painter.paint ⟨"GET", "https://pixels.pythondiscord.com/get_pixel", ⟨0⟩, true⟩
        ⟨"POST", "https://pixels.pythondiscord.com/set_pixel", ⟨0⟩, true⟩ 0
        (fun _ => .netFail)
        (fun _ => .resp ⟨200, [("requests-remaining", 1), ("requests-limit", 5),
          ("requests-reset", 1)], none⟩)
        3 4 ⟨1, 2, 3⟩ true).wrote = false := by
  constructor <;> rfl

/-- C5 amended: with `check` true, a pre-check read equal to the target
short-circuits with no write; an `HTTPError`-class failure of the pre-check
is swallowed and the write is still issued through the write endpoint; a
non-`HTTPError` failure (e.g. transport-level `ConnectionError`) propagates
without a write. -/
theorem paint_precheck_behaviour :
    (∀ (getEp setEp : Endpoint) (now : Int) (tGet tSet : Transport)
        (x y : Int) (c : Colour),
      (Painter.colour getEp now tGet).1 = .ok c →
      (Painter.paint getEp setEp now tGet tSet x y c true).result = .ok () ∧
      (Painter.paint getEp setEp now tGet tSet x y c true).wrote = false) ∧
    (∀ (getEp setEp : Endpoint) (now : Int) (tGet tSet : Transport)
        (x y : Int) (c : Colour) (e : PyErr),
      (Painter.colour getEp now tGet).1 = .error e → e.isHTTPError = true →
      setEp.active = true →
      (Painter.paint getEp setEp now tGet tSet x y c true).wrote = true ∧
      (Painter.paint getEp setEp now tGet tSet x y c true).payload =
        some (x, y, c.hex)) ∧
    (∀ (getEp setEp : Endpoint) (now : Int) (tGet tSet : Transport)
        (x y : Int) (c : Colour) (e : PyErr),
      (Painter.colour getEp now tGet).1 = .error e → e.isHTTPError = false →
      (Painter.paint getEp setEp now tGet tSet x y c true).result = .error e ∧
      (Painter.paint getEp setEp now tGet tSet x y c true).wrote = false) := by
  refine ⟨?_, ?_, ?_⟩
  · intro getEp setEp now tGet tSet x y c hc
    rcases e : Painter.colour getEp now tGet with ⟨res, g⟩
    rw [e] at hc
    simp only at hc
    subst hc
    simp [Painter.paint, e]
  · intro getEp setEp now tGet tSet x y c er hc hhttp hact
    rcases e : Painter.colour getEp now tGet with ⟨res, g⟩
    rw [e] at hc
    simp only at hc
    subst hc
    have hmain := request_mainCalled_of_active setEp now tSet hact
    rcases er2 : (setEp.request now tSet).result with e2 | r2 <;>
      simp [Painter.paint, e, hhttp, er2, hmain]
  · intro getEp setEp now tGet tSet x y c er hc hhttp
    rcases e : Painter.colour getEp now tGet with ⟨res, g⟩
    rw [e] at hc
    simp only at hc
    subst hc
    simp [Painter.paint, e, hhttp]

/-- C5 amended witness: an already-correct pixel short-circuits; an HTTP 500
pre-check is swallowed and the write goes out; a connection failure on the
pre-check propagates. -/
theorem paint_precheck_behaviour_witness :
    ((Painter.paint ⟨"GET", "g", ⟨0⟩, true⟩ ⟨"POST", "s", ⟨0⟩, true⟩ 0
       (fun _ => .resp ⟨200, [("requests-remaining", 1), ("requests-limit", 5),
         ("requests-reset", 1)], some "112233"⟩)
       (fun _ => .resp ⟨200, [("requests-remaining", 1), ("requests-limit", 5),
         ("requests-reset", 1)], none⟩)
       3 4 ⟨17, 34, 51⟩ true).result = .ok () ∧
     (Painter.paint ⟨"GET", "g", ⟨0⟩, true⟩ ⟨"POST", "s", ⟨0⟩, true⟩ 0
       (fun _ => .resp ⟨200, [("requests-remaining", 1), ("requests-limit", 5),
         ("requests-reset", 1)], some "112233"⟩)
       (fun _ => .resp ⟨200, [("requests-remaining", 1), ("requests-limit", 5),
         ("requests-reset", 1)], none⟩)
       3 4 ⟨17, 34, 51⟩ true).wrote = false) ∧
    ((Painter.paint ⟨"GET", "g", ⟨0⟩, true⟩ ⟨"POST", "s", ⟨0⟩, true⟩ 0
       (fun _ => .resp ⟨500, [], none⟩)
       (fun _ => .resp ⟨200, [("requests-remaining", 1), ("requests-limit", 5),
         ("requests-reset", 1)], none⟩)
       3 4 ⟨17, 34, 51⟩ true).wrote = true ∧
     (Painter.paint ⟨"GET", "g", ⟨0⟩, true⟩ ⟨"POST", "s", ⟨0⟩, true⟩ 0
       (fun _ => .resp ⟨500, [], none⟩)
       (fun _ => .resp ⟨200, [("requests-remaining", 1), ("requests-limit", 5),
         ("requests-reset", 1)], none⟩)
       3 4 ⟨17, 34, 51⟩ true).payload = some (3, 4, (Colour.mk 17 34 51).hex)) ∧
    ((Painter.paint ⟨"GET", "g", ⟨0⟩, true⟩ ⟨"POST", "s", ⟨0⟩, true⟩ 0
       (fun _ => .netFail)
       (fun _ => .resp ⟨200, [("requests-remaining", 1), ("requests-limit", 5),
         ("requests-reset", 1)], none⟩)
       3 4 ⟨17, 34, 51⟩ true).result = .error .connectionError ∧
     (Painter.paint ⟨"GET", "g", ⟨0⟩, true⟩ ⟨"POST", "s", ⟨0⟩, true⟩ 0
       (fun _ => .netFail)
       (fun _ => .resp ⟨200, [("requests-remaining", 1), ("requests-limit", 5),
         ("requests-reset", 1)], none⟩)
       3 4 ⟨17, 34, 51⟩ true).wrote = false) :=
  ⟨paint_precheck_behaviour.1 ⟨"GET", "g", ⟨0⟩, true⟩ ⟨"POST", "s", ⟨0⟩, true⟩ 0
     (fun _ => .resp ⟨200, [("requests-remaining", 1), ("requests-limit", 5),
       ("requests-reset", 1)], some "112233"⟩)
     (fun _ => .resp ⟨200, [("requests-remaining", 1), ("requests-limit", 5),
       ("requests-reset", 1)], none⟩)
     3 4 ⟨17, 34, 51⟩ (by decide),
   paint_precheck_behaviour.2.1 ⟨"GET", "g", ⟨0⟩, true⟩ ⟨"POST", "s", ⟨0⟩, true⟩ 0
     (fun _ => .resp ⟨500, [], none⟩)
     (fun _ => .resp ⟨200, [("requests-remaining", 1), ("requests-limit", 5),
       ("requests-reset", 1)], none⟩)
     3 4 ⟨17, 34, 51⟩ .httpError (by decide) (by decide) (by decide),
   paint_precheck_behaviour.2.2 ⟨"GET", "g", ⟨0⟩, true⟩ ⟨"POST", "s", ⟨0⟩, true⟩ 0
     (fun _ => .netFail)
     (fun _ => .resp ⟨200, [("requests-remaining", 1), ("requests-limit", 5),
       ("requests-reset", 1)], none⟩)
     3 4 ⟨17, 34, 51⟩ .connectionError (by decide) (by decide)⟩

/-- Helper: a loop whose body fixes the state is the identity. -/
theorem loopE_noop {σ : Type} (f : Nat → σ → Except PyErr σ) :
    ∀ (n i : Nat) (st : σ),
      (∀ j, i ≤ j → j < i + n → f j st = .ok st) → loopE f n i st = .ok st := by
  intro n
  induction n with
  | zero => intro i st _; rfl
  | succ n ih =>
    intro i st h
    simp only [loopE, h i (Nat.le_refl i) (by omega)]
    exact ih (i + 1) st fun j h1 h2 => h j (by omega) (by omega)

/-- Helper: splitting a loop at an intermediate index. -/
theorem loopE_split {σ : Type} (f : Nat → σ → Except PyErr σ) :
    ∀ (a b i : Nat) (st : σ),
      loopE f (a + b) i st =
        match loopE f a i st with
        | .error e => .error e
        | .ok st' => loopE f b (i + a) st' := by
  intro a
  induction a with
  | zero =>
    intro b i st
    rw [Nat.zero_add]
    rfl
  | succ a ih =>
    intro b i st
    rw [show a + 1 + b = (a + b) + 1 by omega]
    simp only [loopE]
    cases hf : f i st with
    | error e => rfl
    | ok st' =>
      simp only []
      rw [ih b (i + 1) st']
      cases hl : loopE f a (i + 1) st' with
      | error e => rfl
      | ok st'' =>
        simp only []
        rw [show i + 1 + a = i + (a + 1) by omega]

/-- Helper: a pixel whose sketch colour already equals its goal colour (or
whose alpha is zero) leaves the pass state unchanged. -/
theorem protectPixel_noop (sf pf : Nat → Bool) (W H : Nat)
    (image : List (List RGBA)) (imageX imageY : Int) (x y : Nat) (st : PassSt)
    (h : ((image.getD y []).getD x ⟨0, 0, 0, 0⟩).a ≠ 0 →
      st.sk.getitem (imageX + (x : Int), imageY + (y : Int)) =
        .ok ⟨((image.getD y []).getD x ⟨0, 0, 0, 0⟩).r,
             ((image.getD y []).getD x ⟨0, 0, 0, 0⟩).g,
             ((image.getD y []).getD x ⟨0, 0, 0, 0⟩).b⟩) :
    protectPixel sf pf W H image imageX imageY x y st = .ok st := by
  simp only [protectPixel]
  by_cases ha : ((image.getD y []).getD x ⟨0, 0, 0, 0⟩).a ≠ 0
  · rw [if_pos ha]
    have hft : Colour.from_triple
        [((image.getD y []).getD x ⟨0, 0, 0, 0⟩).r,
         ((image.getD y []).getD x ⟨0, 0, 0, 0⟩).g,
         ((image.getD y []).getD x ⟨0, 0, 0, 0⟩).b] =
        .ok ⟨((image.getD y []).getD x ⟨0, 0, 0, 0⟩).r,
             ((image.getD y []).getD x ⟨0, 0, 0, 0⟩).g,
             ((image.getD y []).getD x ⟨0, 0, 0, 0⟩).b⟩ := rfl
    rw [hft, h ha]
    simp
  · rw [if_neg ha]

/-- Helper: a mismatched opaque pixel (with a fault-free transport) paints
the goal colour, refreshes the sketch from the updated canvas, and records
exactly one more paint call. -/
theorem protectPixel_paint (W H : Nat) (image : List (List RGBA))
    (imageX imageY : Int) (x y : Nat) (st : PassSt) (cur : Colour)
    (ha : ((image.getD y []).getD x ⟨0, 0, 0, 0⟩).a ≠ 0)
    (hcur : st.sk.getitem (imageX + (x : Int), imageY + (y : Int)) = .ok cur)
    (hne : cur ≠ ⟨((image.getD y []).getD x ⟨0, 0, 0, 0⟩).r,
                  ((image.getD y []).getD x ⟨0, 0, 0, 0⟩).g,
                  ((image.getD y []).getD x ⟨0, 0, 0, 0⟩).b⟩) :
    protectPixel noFail noFail W H image imageX imageY x y st =
      .ok ⟨setPixel st.canvas W (imageX + (x : Int)).toNat (imageY + (y : Int)).toNat
             ⟨((image.getD y []).getD x ⟨0, 0, 0, 0⟩).r,
              ((image.getD y []).getD x ⟨0, 0, 0, 0⟩).g,
              ((image.getD y []).getD x ⟨0, 0, 0, 0⟩).b⟩,
           ⟨setPixel st.canvas W (imageX + (x : Int)).toNat (imageY + (y : Int)).toNat
             ⟨((image.getD y []).getD x ⟨0, 0, 0, 0⟩).r,
              ((image.getD y []).getD x ⟨0, 0, 0, 0⟩).g,
              ((image.getD y []).getD x ⟨0, 0, 0, 0⟩).b⟩, W, H⟩,
           st.paints ++ [(imageX + (x : Int), imageY + (y : Int),
             ⟨((image.getD y []).getD x ⟨0, 0, 0, 0⟩).r,
              ((image.getD y []).getD x ⟨0, 0, 0, 0⟩).g,
              ((image.getD y []).getD x ⟨0, 0, 0, 0⟩).b⟩)],
           st.calls + 1, st.pcalls + 1⟩ := by
  simp only [protectPixel]
  rw [if_pos ha]
  have hft : Colour.from_triple
      [((image.getD y []).getD x ⟨0, 0, 0, 0⟩).r,
       ((image.getD y []).getD x ⟨0, 0, 0, 0⟩).g,
       ((image.getD y []).getD x ⟨0, 0, 0, 0⟩).b] =
      .ok ⟨((image.getD y []).getD x ⟨0, 0, 0, 0⟩).r,
           ((image.getD y []).getD x ⟨0, 0, 0, 0⟩).g,
           ((image.getD y []).getD x ⟨0, 0, 0, 0⟩).b⟩ := rfl
  rw [hft, hcur]
  simp only []
  rw [if_pos hne]
  simp [sketchCall, noFail]

/-- Helper: `List.set` at one index leaves `getD` at any other index
unchanged. -/
theorem getD_set_ne (l : List Int) (i j : Nat) (v : Int) (h : i ≠ j) :
    (l.set i v).getD j 0 = l.getD j 0 := by
  simp [List.getD_eq_getElem?_getD, List.getElem?_set_ne h]

/-- Helper: row-major pixel offsets are injective for x-coordinates within
the row width. -/
theorem offset_sep (W a1 b1 a2 b2 : Nat) (h1 : a1 < W) (h2 : a2 < W)
    (hne : ¬(a1 = a2 ∧ b1 = b2)) : a1 + W * b1 ≠ a2 + W * b2 := by
  intro he
  have e1 : (a1 + W * b1) % W = a1 := by
    rw [Nat.add_mul_mod_self_left, Nat.mod_eq_of_lt h1]
  have e2 : (a2 + W * b2) % W = a2 := by
    rw [Nat.add_mul_mod_self_left, Nat.mod_eq_of_lt h2]
  have e3 : (a1 + W * b1) / W = b1 := by
    rw [Nat.add_mul_div_left _ _ (by omega), Nat.div_eq_of_lt h1]
    omega
  have e4 : (a2 + W * b2) / W = b2 := by
    rw [Nat.add_mul_div_left _ _ (by omega), Nat.div_eq_of_lt h2]
    omega
  exact hne ⟨by rw [← e1, ← e2, he], by rw [← e3, ← e4, he]⟩

/-- Helper: the byte range of a pixel within the canvas bounds. -/
theorem offset_bound (W H a b : Nat) (ha : a < W) (hb : b < H) :
    (a + W * b) * 3 + 3 ≤ W * H * 3 := by
  have h3 : W * b ≤ W * (H - 1) := Nat.mul_le_mul_left W (by omega)
  have h4 : W * (H - 1) + W = W * H := by
    cases H with
    | zero => omega
    | succ n => simp [Nat.mul_succ]
  omega

/-- Helper: the `toNat` of a non-negative pixel offset. -/
theorem offset_toNat (W : Nat) (cx cy : Int) (hx : 0 ≤ cx) (hy : 0 ≤ cy) :
    ((cx + W * cy) * 3).toNat = (cx.toNat + W * cy.toNat) * 3 := by
  have h : (cx + (W : Int) * cy) * 3 = (((cx.toNat + W * cy.toNat) * 3 : Nat) : Int) := by
    push_cast
    rw [Int.toNat_of_nonneg hx, Int.toNat_of_nonneg hy]
  rw [h, Int.toNat_natCast]

/-- Helper: `setPixel` at one pixel does not change the bytes of another. -/
theorem getD_setPixel_ne (canvas : List Int) (W : Nat) (a2 b2 : Nat)
    (c : Colour) (idx : Nat)
    (h : ∀ k : Nat, k < 3 → idx ≠ (a2 + W * b2) * 3 + k) :
    (setPixel canvas W a2 b2 c).getD idx 0 = canvas.getD idx 0 := by
  simp only [setPixel]
  rw [getD_set_ne _ _ _ _ (fun he => h 2 (by omega) (by omega)),
    getD_set_ne _ _ _ _ (fun he => h 1 (by omega) (by omega)),
    getD_set_ne _ _ _ _ (fun he => h 0 (by omega) (by omega))]

/-- Helper: reading one pixel of a sketch taken after painting a different
pixel gives the same colour as before the paint. -/
theorem getitem_setPixel_ne (canvas : List Int) (W H : Nat)
    (cx1 cy1 cx2 cy2 : Int) (c : Colour)
    (hlen : canvas.length = W * H * 3)
    (h1 : 0 ≤ cx1) (h2 : cx1 < W) (h3 : 0 ≤ cy1) (h4 : cy1 < H)
    (h5 : 0 ≤ cx2) (h6 : cx2 < W) (h7 : 0 ≤ cy2) (h8 : cy2 < H)
    (hne : ¬(cx1 = cx2 ∧ cy1 = cy2)) :
    (Sketch.mk (setPixel canvas W cx2.toNat cy2.toNat c) W H).getitem (cx1, cy1) =
      (Sketch.mk canvas W H).getitem (cx1, cy1) := by
  have hlen' : (setPixel canvas W cx2.toNat cy2.toNat c).length = canvas.length := by
    simp [setPixel]
  have hx1W : cx1.toNat < W := by omega
  have hy1H : cy1.toNat < H := by omega
  have hx2W : cx2.toNat < W := by omega
  have hy2H : cy2.toNat < H := by omega
  have hb1 := offset_bound W H cx1.toNat cy1.toNat hx1W hy1H
  have ht1 := offset_toNat W cx1 cy1 h1 h3
  have hin1 : ((cx1 + W * cy1) * 3).toNat + 3 ≤ canvas.length := by omega
  rw [getitem_nonneg_eq _ W H cx1 cy1 h1 h3 (by omega),
    getitem_nonneg_eq _ W H cx1 cy1 h1 h3 (by omega)]
  have hsep : cx1.toNat + W * cy1.toNat ≠ cx2.toNat + W * cy2.toNat := by
    refine offset_sep W _ _ _ _ hx1W hx2W ?_
    intro ⟨e1, e2⟩
    exact hne ⟨by omega, by omega⟩
  rw [ht1]
  congr 1
  refine Colour.mk.injEq _ _ _ _ _ _ ▸ ?_
  refine ⟨?_, ?_, ?_⟩ <;>
    exact getD_setPixel_ne canvas W cx2.toNat cy2.toNat c _
      (fun k hk => by omega)

/-- C1 (code evaluation at the failing input): with two jobs and a transport
that fails the `sketch()` fetch of job A but would succeed afterwards, the pass
does not log-and-skip; it raises `AttributeError` (the handler reads
`except core.NetworkError`, and `core.py` defines no `NetworkError`), so
job B is never attempted. -/
theorem protector_pass_crashes_on_sketch_failure :
    runPass (fun k => k == 0) noFail 2 1
      [⟨[[⟨1, 2, 3, 255⟩]], 0, 0⟩, ⟨[[⟨4, 5, 6, 255⟩]], 1, 0⟩]
      (initSt [1, 2, 3, 9, 9, 9]) = .error (.attributeError "NetworkError") := by
  rfl

/-- C2: a pass over a job whose opaque pixels all match the sketch performs
zero paint calls (pixels with alpha 0 are unconstrained and never painted);
with exactly one mismatched opaque pixel, the pass performs exactly one
paint call, at the origin-offset coordinate, with the goal colour built from
the RGB channels of that pixel. -/
theorem protector_pass_convergence :
    (∀ (canvas : List Int) (W H : Nat) (image : List (List RGBA)) (ox oy : Int),
      (∀ y x : Nat, y < image.length → x < shape1 image →
        ((image.getD y []).getD x ⟨0, 0, 0, 0⟩).a ≠ 0 →
        (Sketch.mk canvas W H).getitem
            (resolveOrigin W ox + (x : Int), resolveOrigin H oy + (y : Int)) =
          .ok ⟨((image.getD y []).getD x ⟨0, 0, 0, 0⟩).r,
               ((image.getD y []).getD x ⟨0, 0, 0, 0⟩).g,
               ((image.getD y []).getD x ⟨0, 0, 0, 0⟩).b⟩) →
      runPass noFail noFail W H [⟨image, ox, oy⟩] (initSt canvas) =
        .ok ⟨canvas, ⟨canvas, W, H⟩, [], 1, 0⟩) ∧
    (∀ (canvas : List Int) (W H : Nat) (image : List (List RGBA)) (ox oy : Int)
        (x0 y0 : Nat) (cur0 : Colour),
      canvas.length = W * H * 3 →
      0 ≤ resolveOrigin W ox →
      resolveOrigin W ox + (shape1 image : Int) ≤ W →
      0 ≤ resolveOrigin H oy →
      resolveOrigin H oy + (image.length : Int) ≤ H →
      y0 < image.length → x0 < shape1 image →
      ((image.getD y0 []).getD x0 ⟨0, 0, 0, 0⟩).a ≠ 0 →
      (Sketch.mk canvas W H).getitem
          (resolveOrigin W ox + (x0 : Int), resolveOrigin H oy + (y0 : Int)) =
        .ok cur0 →
      cur0 ≠ ⟨((image.getD y0 []).getD x0 ⟨0, 0, 0, 0⟩).r,
              ((image.getD y0 []).getD x0 ⟨0, 0, 0, 0⟩).g,
              ((image.getD y0 []).getD x0 ⟨0, 0, 0, 0⟩).b⟩ →
      (∀ y x : Nat, y < image.length → x < shape1 image → ¬(x = x0 ∧ y = y0) →
        ((image.getD y []).getD x ⟨0, 0, 0, 0⟩).a ≠ 0 →
        (Sketch.mk canvas W H).getitem
            (resolveOrigin W ox + (x : Int), resolveOrigin H oy + (y : Int)) =
          .ok ⟨((image.getD y []).getD x ⟨0, 0, 0, 0⟩).r,
               ((image.getD y []).getD x ⟨0, 0, 0, 0⟩).g,
               ((image.getD y []).getD x ⟨0, 0, 0, 0⟩).b⟩) →
      runPass noFail noFail W H [⟨image, ox, oy⟩] (initSt canvas) =
        .ok ⟨setPixel canvas W (resolveOrigin W ox + (x0 : Int)).toNat
               (resolveOrigin H oy + (y0 : Int)).toNat
               ⟨((image.getD y0 []).getD x0 ⟨0, 0, 0, 0⟩).r,
                ((image.getD y0 []).getD x0 ⟨0, 0, 0, 0⟩).g,
                ((image.getD y0 []).getD x0 ⟨0, 0, 0, 0⟩).b⟩,
             ⟨setPixel canvas W (resolveOrigin W ox + (x0 : Int)).toNat
               (resolveOrigin H oy + (y0 : Int)).toNat
               ⟨((image.getD y0 []).getD x0 ⟨0, 0, 0, 0⟩).r,
                ((image.getD y0 []).getD x0 ⟨0, 0, 0, 0⟩).g,
                ((image.getD y0 []).getD x0 ⟨0, 0, 0, 0⟩).b⟩, W, H⟩,
             [(resolveOrigin W ox + (x0 : Int), resolveOrigin H oy + (y0 : Int),
               ⟨((image.getD y0 []).getD x0 ⟨0, 0, 0, 0⟩).r,
                ((image.getD y0 []).getD x0 ⟨0, 0, 0, 0⟩).g,
                ((image.getD y0 []).getD x0 ⟨0, 0, 0, 0⟩).b⟩)],
             2, 1⟩) := by
  constructor
  · intro canvas W H image ox oy hmatch
    have hscan : scanImage noFail noFail W H image (resolveOrigin W ox)
        (resolveOrigin H oy) ⟨canvas, ⟨canvas, W, H⟩, [], 1, 0⟩ =
        .ok ⟨canvas, ⟨canvas, W, H⟩, [], 1, 0⟩ := by
      refine loopE_noop _ image.length 0 _ (fun j h1 h2 => ?_)
      refine loopE_noop _ (shape1 image) 0 _ (fun i h3 h4 => ?_)
      exact protectPixel_noop _ _ _ _ _ _ _ _ _ _
        (fun hop => hmatch j i (by omega) (by omega) hop)
    have hjob : runJob noFail noFail W H ⟨image, ox, oy⟩ (initSt canvas) =
        .ok ⟨canvas, ⟨canvas, W, H⟩, [], 1, 0⟩ := by
      simp only [runJob]
      rw [show sketchCall noFail W H (initSt canvas) =
        .ok (⟨canvas, W, H⟩, ⟨canvas, ⟨[], 0, 0⟩, [], 1, 0⟩) from rfl]
      exact hscan
    simp only [runPass, hjob]
  · intro canvas W H image ox oy x0 y0 cur0 hlen hA0 hAW hB0 hBH hy0 hx0 hop
      hcur hne hothers
    set A : Int := resolveOrigin W ox with hA
    set B : Int := resolveOrigin H oy with hB
    set g0 : Colour := ⟨((image.getD y0 []).getD x0 ⟨0, 0, 0, 0⟩).r,
      ((image.getD y0 []).getD x0 ⟨0, 0, 0, 0⟩).g,
      ((image.getD y0 []).getD x0 ⟨0, 0, 0, 0⟩).b⟩ with hg0
    set canvas2 : List Int :=
      setPixel canvas W (A + (x0 : Int)).toNat (B + (y0 : Int)).toNat g0 with hc2
    have hnew : ∀ y x : Nat, y < image.length → x < shape1 image →
        ¬(x = x0 ∧ y = y0) →
        ((image.getD y []).getD x ⟨0, 0, 0, 0⟩).a ≠ 0 →
        (Sketch.mk canvas2 W H).getitem (A + (x : Int), B + (y : Int)) =
          .ok ⟨((image.getD y []).getD x ⟨0, 0, 0, 0⟩).r,
               ((image.getD y []).getD x ⟨0, 0, 0, 0⟩).g,
               ((image.getD y []).getD x ⟨0, 0, 0, 0⟩).b⟩ := by
      intro y x hy hx hne2 hop2
      rw [hc2]
      rw [getitem_setPixel_ne canvas W H (A + (x : Int)) (B + (y : Int))
        (A + (x0 : Int)) (B + (y0 : Int)) g0 hlen
        (by omega) (by omega) (by omega) (by omega)
        (by omega) (by omega) (by omega) (by omega)
        (by rintro ⟨e1, e2⟩; exact hne2 ⟨by omega, by omega⟩)]
      exact hothers y x hy hx hne2 hop2
    have hrow : loopE
        (fun x st => protectPixel noFail noFail W H image A B x y0 st)
        (shape1 image) 0 ⟨canvas, ⟨canvas, W, H⟩, [], 1, 0⟩ =
        .ok ⟨canvas2, ⟨canvas2, W, H⟩, [(A + (x0 : Int), B + (y0 : Int), g0)],
          2, 1⟩ := by
      rw [show shape1 image = x0 + (1 + (shape1 image - x0 - 1)) by omega]
      rw [loopE_split]
      have hpre : loopE
          (fun x st => protectPixel noFail noFail W H image A B x y0 st)
          x0 0 ⟨canvas, ⟨canvas, W, H⟩, [], 1, 0⟩ =
          .ok ⟨canvas, ⟨canvas, W, H⟩, [], 1, 0⟩ :=
        loopE_noop _ x0 0 _ (fun j h1 h2 =>
          protectPixel_noop _ _ _ _ _ _ _ _ _ _
            (fun hop2 => hothers y0 j hy0 (by omega)
              (by rintro ⟨e1, _⟩; omega) hop2))
      rw [hpre]
      simp only [Nat.zero_add]
      rw [loopE_split]
      have hstep : loopE
          (fun x st => protectPixel noFail noFail W H image A B x y0 st)
          1 x0 ⟨canvas, ⟨canvas, W, H⟩, [], 1, 0⟩ =
          .ok ⟨canvas2, ⟨canvas2, W, H⟩,
            [(A + (x0 : Int), B + (y0 : Int), g0)], 2, 1⟩ := by
        simp only [loopE]
        rw [protectPixel_paint W H image A B x0 y0
          ⟨canvas, ⟨canvas, W, H⟩, [], 1, 0⟩ cur0 hop hcur hne]
        rfl
      rw [hstep]
      exact loopE_noop _ (shape1 image - x0 - 1) (x0 + 1) _ (fun j h1 h2 =>
        protectPixel_noop _ _ _ _ _ _ _ _ _ _
          (fun hop2 => hnew y0 j hy0 (by omega)
            (by rintro ⟨e1, _⟩; omega) hop2))
    have hscan : scanImage noFail noFail W H image A B
        ⟨canvas, ⟨canvas, W, H⟩, [], 1, 0⟩ =
        .ok ⟨canvas2, ⟨canvas2, W, H⟩,
          [(A + (x0 : Int), B + (y0 : Int), g0)], 2, 1⟩ := by
      simp only [scanImage]
      rw [show image.length = y0 + (1 + (image.length - y0 - 1)) by omega]
      rw [loopE_split]
      have hpre_rows : loopE
          (fun y st => loopE
            (fun x st => protectPixel noFail noFail W H image A B x y st)
            (shape1 image) 0 st)
          y0 0 ⟨canvas, ⟨canvas, W, H⟩, [], 1, 0⟩ =
          .ok ⟨canvas, ⟨canvas, W, H⟩, [], 1, 0⟩ :=
        loopE_noop _ y0 0 _ (fun j h1 h2 =>
          loopE_noop _ (shape1 image) 0 _ (fun i h3 h4 =>
            protectPixel_noop _ _ _ _ _ _ _ _ _ _
              (fun hop2 => hothers j i (by omega) (by omega)
                (by rintro ⟨_, e2⟩; omega) hop2)))
      rw [hpre_rows]
      simp only [Nat.zero_add]
      rw [loopE_split]
      have hmid : loopE
          (fun y st => loopE
            (fun x st => protectPixel noFail noFail W H image A B x y st)
            (shape1 image) 0 st)
          1 y0 ⟨canvas, ⟨canvas, W, H⟩, [], 1, 0⟩ =
          .ok ⟨canvas2, ⟨canvas2, W, H⟩,
            [(A + (x0 : Int), B + (y0 : Int), g0)], 2, 1⟩ := by
        simp only [loopE]
        rw [hrow]
      rw [hmid]
      exact loopE_noop _ (image.length - y0 - 1) (y0 + 1) _ (fun j h1 h2 =>
        loopE_noop _ (shape1 image) 0 _ (fun i h3 h4 =>
          protectPixel_noop _ _ _ _ _ _ _ _ _ _
            (fun hop2 => hnew j i (by omega) (by omega)
              (by rintro ⟨_, e2⟩; omega) hop2)))
    have hjob : runJob noFail noFail W H ⟨image, ox, oy⟩ (initSt canvas) =
        .ok ⟨canvas2, ⟨canvas2, W, H⟩,
          [(A + (x0 : Int), B + (y0 : Int), g0)], 2, 1⟩ := by
      simp only [runJob]
      rw [show sketchCall noFail W H (initSt canvas) =
        .ok (⟨canvas, W, H⟩, ⟨canvas, ⟨[], 0, 0⟩, [], 1, 0⟩) from rfl]
      exact hscan
    simp only [runPass, hjob]

/-- C2 witness: on a 2×1 canvas, a job whose single opaque pixel matches
(and whose transparent pixel mismatches) paints nothing; a job with one
mismatched opaque pixel at origin (1,0) issues exactly one paint call there
with the goal colour. -/
theorem protector_pass_convergence_witness :
    runPass noFail noFail 2 1 [⟨[[⟨1, 2, 3, 255⟩, ⟨7, 7, 7, 0⟩]], 0, 0⟩]
      (initSt [1, 2, 3, 9, 9, 9]) =
      .ok ⟨[1, 2, 3, 9, 9, 9], ⟨[1, 2, 3, 9, 9, 9], 2, 1⟩, [], 1, 0⟩ ∧
    runPass noFail noFail 2 1 [⟨[[⟨5, 6, 7, 255⟩]], 1, 0⟩]
      (initSt [1, 2, 3, 9, 9, 9]) =
      .ok ⟨[1, 2, 3, 5, 6, 7], ⟨[1, 2, 3, 5, 6, 7], 2, 1⟩,
        [(1, 0, ⟨5, 6, 7⟩)], 2, 1⟩ := by
  constructor
  · refine protector_pass_convergence.1 [1, 2, 3, 9, 9, 9] 2 1
      [[⟨1, 2, 3, 255⟩, ⟨7, 7, 7, 0⟩]] 0 0 ?_
    intro y x hy hx hop
    have hy' : y = 0 := by
      simp only [List.length_cons, List.length_nil] at hy
      omega
    subst hy'
    have hx' : x < 2 := by
      simpa [shape1] using hx
    interval_cases x <;> first | decide | (exact absurd rfl hop)
  · refine protector_pass_convergence.2 [1, 2, 3, 9, 9, 9] 2 1
      [[⟨5, 6, 7, 255⟩]] 1 0 0 0 ⟨9, 9, 9⟩ (by decide) (by decide) (by decide)
      (by decide) (by decide) (by decide) (by decide) (by decide) (by decide)
      (by decide) ?_
    intro y x hy hx hne2 hop2
    have hy' : y = 0 := by
      simp only [List.length_cons, List.length_nil] at hy
      omega
    have hx' : x = 0 := by
      simp only [shape1, List.headD, List.length_cons, List.length_nil] at hx
      omega
    subst hy'
    subst hx'
    exact absurd ⟨rfl, rfl⟩ hne2
